import Mathlib

/-!
Verification of the service layer of the `abyss-explorer` personal
knowledge-vault backend: a shallow embedding in Lean 4 of the credential and
token lifecycle (`app/core/security.py`, `app/services/auth_service.py`) and of
the document organization engine (`app/services/document_service.py`), together
with theorems settling the specification's claims about them.

Modelling conventions: timestamps are `Nat` (Unix seconds); ids are `String`
(UUID strings) except tag ids, which are allocated from a counter; the database
is explicit state (lists of rows) threaded through each operation; Python
exceptions become `Except`/`Option` results; a bcrypt hash is modelled by the
plaintext it certifies (`verify` succeeds exactly on the hashed plaintext);
a JWT is modelled by its claim set plus the signing key, so that signature
validity is "signed with the server secret".
-/

namespace Vault

/-- Error taxonomy from `app/core/exceptions.py`: every application error
carries an HTTP status code and a human-readable detail string.  (The
`UnauthorizedError` constructor additionally attaches a constant
`WWW-Authenticate: Bearer` header, identical for all 401s, so it does not
distinguish error causes and is omitted here.) -/
structure AppError where
  status : Nat
  detail : String
deriving Repr, DecidableEq

/-- `BadRequestError` (400). -/
def badRequestError (detail : String) : AppError := ⟨400, detail⟩

/-- `UnauthorizedError` (401). -/
def unauthorizedError (detail : String) : AppError := ⟨401, detail⟩

/-- `ForbiddenError` (403). -/
def forbiddenError (detail : String) : AppError := ⟨403, detail⟩

/-- `NotFoundError` (404). -/
def notFoundError (detail : String) : AppError := ⟨404, detail⟩

/-- `ConflictError` (409). -/
def conflictError (detail : String) : AppError := ⟨409, detail⟩

/-- The logical claim set of a JWT as written by `create_access_token` /
`create_refresh_token` in `app/core/security.py`: subject, expiry (Unix
seconds), and token type ("access" or "refresh"). -/
structure TokenPayload where
  sub : String
  exp : Nat
  type : String
deriving Repr, DecidableEq

/-- A compact token as the verifier sees it: either a well-formed JWT whose
signature was produced with some symmetric key, or a malformed string (which
`jwt.decode` rejects with `JWTError`). -/
inductive Token where
  | signed (payload : TokenPayload) (key : String)
  | malformed (raw : String)
deriving Repr, DecidableEq

/-- `create_access_token(subject, expires_delta)`: claim set
`{sub, exp = now + delta, type = "access"}` signed with the configured
secret. -/
def create_access_token (subject secret : String) (now expires_delta : Nat) : Token :=
  Token.signed ⟨subject, now + expires_delta, "access"⟩ secret

/-- `create_refresh_token(subject, expires_delta)`: claim set
`{sub, exp = now + delta, type = "refresh"}` signed with the configured
secret. -/
def create_refresh_token (subject secret : String) (now expires_delta : Nat) : Token :=
  Token.signed ⟨subject, now + expires_delta, "refresh"⟩ secret

/-- `verify_token(token, token_type)` from `app/core/security.py`: `jwt.decode`
checks the signature and that the expiry has not passed (python-jose raises
`ExpiredSignatureError`, a `JWTError`, exactly when `exp < now` at zero
leeway); then the payload's `type` claim is compared with the expected kind.
Every failure path returns the single uniform result `none`. -/
def verify_token (secret : String) (now : Nat) (token : Token) (token_type : String) :
    Option TokenPayload :=
  match token with
  | Token.malformed _ => none
  | Token.signed payload key =>
    if key ≠ secret then none
    else if payload.exp < now then none
    else if payload.type ≠ token_type then none
    else some payload

/-- `settings.jwt_access_token_expire_minutes = 15`, in seconds. -/
def jwt_access_token_expire_seconds : Nat := 15 * 60

/-- `settings.jwt_refresh_token_expire_days = 7`, in seconds. -/
def jwt_refresh_token_expire_seconds : Nat := 7 * 24 * 60 * 60

/-- The `{access_token, refresh_token, token_type}` dict returned by
`create_token_pair`. -/
structure TokenPair where
  access_token : Token
  refresh_token : Token
  token_type : String
deriving Repr, DecidableEq

/-- `create_token_pair(user_id)`: an access token with the short configured
ttl and a refresh token with the long configured ttl, both for the same
subject. -/
def create_token_pair (user_id secret : String) (now : Nat) : TokenPair :=
  ⟨create_access_token user_id secret now jwt_access_token_expire_seconds,
   create_refresh_token user_id secret now jwt_refresh_token_expire_seconds,
   "bearer"⟩

/-- A bcrypt hash, modelled by the plaintext it certifies: `hash_password`
salts and hashes, and `verify_password` succeeds exactly when the candidate
plaintext matches the hashed one (`passlib` bcrypt context in
`app/core/security.py`). -/
structure PasswordHash where
  of : String
deriving Repr, DecidableEq

/-- `hash_password(password)`. -/
def hash_password (password : String) : PasswordHash := ⟨password⟩

/-- `verify_password(plain_password, hashed_password)`. -/
def verify_password (plain : String) (h : PasswordHash) : Bool := plain == h.of

/-- The `users` table row (`app/models/user.py` plus the UUID/timestamp
mixins).  `is_active` defaults to true on creation. -/
structure User where
  id : String
  email : String
  username : String
  password_hash : PasswordHash
  is_active : Bool
  settings : Option String
  created_at : Nat
  updated_at : Nat
deriving Repr, DecidableEq

/-- `UserCreate` payload (validation of shape is the schema collaborator's
job and happens before the service is invoked). -/
structure UserCreate where
  email : String
  username : String
  password : String
deriving Repr, DecidableEq

/-- `UserLogin` payload. -/
structure UserLogin where
  email : String
  password : String
deriving Repr, DecidableEq

/-- The default settings blob persisted on registration. -/
def default_settings : String :=
  "\x7b\"theme\": \"system\", \"editor\": \"default\"\x7d"

/-- `AuthService.register`: check email uniqueness, then username uniqueness
(both raise `ConflictError` before any write), then persist the new user and
issue a token pair.  The returned user list is the database state after the
call; `new_id` stands for the generated UUID. -/
def register (db : List User) (data : UserCreate) (new_id secret : String) (now : Nat) :
    List User × Except AppError (User × TokenPair) :=
  if (db.find? (fun u => u.email == data.email)).isSome then
    (db, Except.error (conflictError "Email already registered"))
  else if (db.find? (fun u => u.username == data.username)).isSome then
    (db, Except.error (conflictError "Username already taken"))
  else
    let user : User :=
      ⟨new_id, data.email, data.username, hash_password data.password,
       true, some default_settings, now, now⟩
    (db ++ [user], Except.ok (user, create_token_pair new_id secret now))

/-- `AuthService.login`: look up by email; nonexistent email and wrong
password raise `UnauthorizedError("Invalid email or password")`, an inactive
account raises `UnauthorizedError("Account is disabled")`; on success a fresh
token pair is issued and nothing is mutated. -/
def login (db : List User) (data : UserLogin) (secret : String) (now : Nat) :
    Except AppError (User × TokenPair) :=
  match db.find? (fun u => u.email == data.email) with
  | none => Except.error (unauthorizedError "Invalid email or password")
  | some user =>
    if !verify_password data.password user.password_hash then
      Except.error (unauthorizedError "Invalid email or password")
    else if !user.is_active then
      Except.error (unauthorizedError "Account is disabled")
    else
      Except.ok (user, create_token_pair user.id secret now)

/-- `AuthService.change_password`: raise `BadRequestError` before any
mutation when the old password does not verify; otherwise store the hash of
the new password and bump the updated timestamp.  Returns the (possibly
updated) user row together with the error, if any. -/
def change_password (user : User) (old_password new_password : String) (now : Nat) :
    User × Option AppError :=
  if !verify_password old_password user.password_hash then
    (user, some (badRequestError "Current password is incorrect"))
  else
    ({ user with password_hash := hash_password new_password, updated_at := now }, none)

/-- The `documents` table row (`app/models/document.py` plus the
UUID/timestamp mixins).  `importance_score`, a float column untouched by the
operations verified here, is modelled as `Int`; datetime columns are Unix
seconds. -/
structure Document where
  id : String
  user_id : String
  title : String
  content_raw : Option String
  content_html : Option String
  content_plain : Option String
  doc_type : String
  source_type : String
  source_url : Option String
  metadata_json : Option String
  embedding : Option String
  importance_score : Int
  source_date : Option Nat
  last_accessed : Nat
  is_archived : Bool
  is_pinned : Bool
  is_processed : Bool
  created_at : Nat
  updated_at : Nat
deriving Repr, DecidableEq

/-- `DocumentService.get_by_id`: select by id alone (`scalar_one_or_none`;
ids are primary keys, so the first match is the only match), raise
`NotFoundError` when absent, `ForbiddenError` when owned by a different user,
and on success bump `last_accessed` to the current time and return the row. -/
def get_by_id (db : List Document) (user : User) (document_id : String) (now : Nat) :
    Except AppError Document :=
  match db.find? (fun d => d.id == document_id) with
  | none => Except.error (notFoundError "Document not found")
  | some document =>
    if document.user_id ≠ user.id then Except.error (forbiddenError "Access denied")
    else Except.ok { document with last_accessed := now }

/-- `DocumentSearchFilters` (`app/schemas/document.py`): `sort_by` is an
unvalidated string defaulting to "updated_at"; `page ≥ 1` and
`1 ≤ limit ≤ 100` are enforced by the schema. -/
structure DocumentSearchFilters where
  query : Option String
  doc_type : Option String
  is_pinned : Option Bool
  is_archived : Option Bool
  date_from : Option Nat
  date_to : Option Nat
  sort_by : String
  sort_order : String
  page : Nat
  limit : Nat
deriving Repr, DecidableEq

/-- Does `needle` occur as a contiguous sublist of the second argument? -/
def hasSublist (needle : List Char) : List Char → Bool
  | [] => needle.isEmpty
  | c :: rest => needle.isPrefixOf (c :: rest) || hasSublist needle rest

/-- Lowercasing, character by character. -/
def lowerChars (cs : List Char) : List Char := cs.map Char.toLower

/-- SQL `column ILIKE '%term%'`: case-insensitive substring containment. -/
def ilikeContains (column term : String) : Bool :=
  hasSublist (lowerChars term.toList) (lowerChars column.toList)

/-- The WHERE clause built by `DocumentService.list`: owner scoping plus the
optional filters.  Python truthiness (`if filters.query:` and
`if filters.doc_type:`) skips the clause for `None` and for the empty string;
`is_pinned`/`is_archived` test `is not None`; `ILIKE` on a NULL
`content_plain` matches no row; when `is_archived` is unspecified the query
defaults to excluding archived documents. -/
def matchesFilters (user : User) (f : DocumentSearchFilters) (d : Document) : Bool :=
  (d.user_id == user.id)
  && (match f.query with
      | none => true
      | some q =>
        if q == "" then true
        else
          ilikeContains d.title q
          || (match d.content_plain with
              | none => false
              | some c => ilikeContains c q))
  && (match f.doc_type with
      | none => true
      | some t => if t == "" then true else d.doc_type == t)
  && (match f.is_pinned with
      | none => true
      | some b => d.is_pinned == b)
  && (match f.is_archived with
      | none => d.is_archived == false
      | some b => d.is_archived == b)
  && (match f.date_from with
      | none => true
      | some t => t ≤ d.created_at)
  && (match f.date_to with
      | none => true
      | some t => d.created_at ≤ t)

/-- The mapped column names of the `Document` model: `getattr(Document, name)`
succeeds for each of these and yields an orderable column. -/
def documentColumnNames : List String :=
  ["id", "created_at", "updated_at", "user_id", "title", "content_raw",
   "content_html", "content_plain", "doc_type", "source_type", "source_url",
   "metadata_json", "embedding", "importance_score", "source_date",
   "last_accessed", "is_archived", "is_pinned", "is_processed"]

/-- Attributes of the `Document` class that are not mapped columns:
`getattr(Document, name)` succeeds for these too, but yields a relationship
(`app/models/document.py`) or an inherited class attribute / method
(`DeclarativeBase` and the `Base` mixin in `app/models/base.py`), not an
orderable column. -/
def documentNonColumnAttributeNames : List String :=
  ["user", "chunks", "document_tags", "outgoing_links", "incoming_links",
   "document_collections", "attachments", "metadata", "registry",
   "__tablename__", "to_dict", "__repr__"]

/-- Every attribute name of the `Document` class: `getattr(Document, name)`
succeeds exactly for these. -/
def documentAttributeNames : List String :=
  documentColumnNames ++ documentNonColumnAttributeNames

/-- `getattr(Document, filters.sort_by, Document.updated_at)`: the attribute
the ORDER BY is delegated to.  Any existing `Document` attribute — mapped
column, relationship, or inherited class attribute — passes straight through;
only a name that is not an attribute at all falls back to `updated_at`. -/
def sortColumn (sort_by : String) : String :=
  if documentAttributeNames.contains sort_by then sort_by else "updated_at"

/-- A SQL value of a sort column, for comparison purposes. -/
inductive ColValue where
  | vNull
  | vStr (s : String)
  | vNat (n : Nat)
  | vInt (i : Int)
  | vBool (b : Bool)
deriving Repr, DecidableEq

/-- Kind rank, used only to totalize comparisons across constructors (a single
column always yields a single constructor). -/
def ColValue.rank : ColValue → Nat
  | .vNull => 0
  | .vStr _ => 1
  | .vNat _ => 2
  | .vInt _ => 3
  | .vBool _ => 4

/-- Lexicographic "less or equal" on character lists (the modelled string
collation). -/
def charsLe : List Char → List Char → Bool
  | [], _ => true
  | _ :: _, [] => false
  | a :: as, b :: bs => if a < b then true else if b < a then false else charsLe as bs

/-- SQL-style ascending "less or equal" on column values, NULLs first. -/
def ColValue.le (a b : ColValue) : Bool :=
  match a, b with
  | .vNull, _ => true
  | _, .vNull => false
  | .vStr s, .vStr t => charsLe s.toList t.toList
  | .vNat m, .vNat n => decide (m ≤ n)
  | .vInt i, .vInt j => decide (i ≤ j)
  | .vBool x, .vBool y => !x || y
  | a, b => decide (a.rank ≤ b.rank)

/-- A nullable string column's value. -/
def optStrVal : Option String → ColValue
  | none => ColValue.vNull
  | some s => ColValue.vStr s

/-- The value of the named `Document` column in a given row. -/
def columnValue (col : String) (d : Document) : ColValue :=
  if col == "id" then ColValue.vStr d.id
  else if col == "created_at" then ColValue.vNat d.created_at
  else if col == "updated_at" then ColValue.vNat d.updated_at
  else if col == "user_id" then ColValue.vStr d.user_id
  else if col == "title" then ColValue.vStr d.title
  else if col == "content_raw" then optStrVal d.content_raw
  else if col == "content_html" then optStrVal d.content_html
  else if col == "content_plain" then optStrVal d.content_plain
  else if col == "doc_type" then ColValue.vStr d.doc_type
  else if col == "source_type" then ColValue.vStr d.source_type
  else if col == "source_url" then optStrVal d.source_url
  else if col == "metadata_json" then optStrVal d.metadata_json
  else if col == "embedding" then optStrVal d.embedding
  else if col == "importance_score" then ColValue.vInt d.importance_score
  else if col == "source_date" then
    (match d.source_date with
     | none => ColValue.vNull
     | some t => ColValue.vNat t)
  else if col == "last_accessed" then ColValue.vNat d.last_accessed
  else if col == "is_archived" then ColValue.vBool d.is_archived
  else if col == "is_pinned" then ColValue.vBool d.is_pinned
  else if col == "is_processed" then ColValue.vBool d.is_processed
  else ColValue.vNull

/-- The ORDER BY applied by `DocumentService.list`: descending when
`sort_order == "desc"`, ascending otherwise, on the resolved sort column
(a stable sort, modelling the storage engine's ordering). -/
def sortDocuments (f : DocumentSearchFilters) (docs : List Document) : List Document :=
  let key := columnValue (sortColumn f.sort_by)
  if f.sort_order == "desc" then
    docs.insertionSort (fun a b => ColValue.le (key b) (key a) = true)
  else
    docs.insertionSort (fun a b => ColValue.le (key a) (key b) = true)

/-- `DocumentService.list`: filter (WHERE), count the filtered set (total is
computed before pagination), sort, then apply `OFFSET (page-1)*limit` and
`LIMIT limit`.  Returns the page of documents and the total count. -/
def documentsList (db : List Document) (user : User) (f : DocumentSearchFilters) :
    List Document × Nat :=
  let filtered := db.filter (matchesFilters user f)
  let total := filtered.length
  let sorted := sortDocuments f filtered
  let offset := (f.page - 1) * f.limit
  ((sorted.drop offset).take f.limit, total)

/-- `pages = math.ceil(total / limit) if total > 0 else 0` from the
`list_documents` route (`app/api/v1/documents.py`). -/
def pagesFor (total limit : Nat) : Nat :=
  if total > 0 then (total + limit - 1) / limit else 0

/-- `DocumentUpdate` partial-update payload (`app/schemas/document.py`): every
field is optional, and an explicit JSON null deserializes to `none` exactly
like an absent field. -/
structure DocumentUpdate where
  title : Option String
  content : Option String
  doc_type : Option String
  source_url : Option String
  is_pinned : Option Bool
  is_archived : Option Bool
  tags : Option (List String)
  collection_id : Option String
deriving Repr, DecidableEq

/-- The field-application block of `DocumentService.update`: each provided
(non-None) field overwrites the stored one, `content` also refreshes
`content_plain`, and `updated_at` is bumped at the end. -/
def applyUpdateFields (document : Document) (data : DocumentUpdate) (now : Nat) : Document :=
  let document :=
    match data.title with
    | some t => { document with title := t }
    | none => document
  let document :=
    match data.content with
    | some c => { document with content_raw := some c, content_plain := some c }
    | none => document
  let document :=
    match data.doc_type with
    | some t => { document with doc_type := t }
    | none => document
  let document :=
    match data.source_url with
    | some u => { document with source_url := some u }
    | none => document
  let document :=
    match data.is_pinned with
    | some b => { document with is_pinned := b }
    | none => document
  let document :=
    match data.is_archived with
    | some b => { document with is_archived := b }
    | none => document
  { document with updated_at := now }

/-- `DocumentService.update`: ownership-checked load via `get_by_id` (which
itself bumps `last_accessed` and commits), then partial field application.
Returns the updated document row.  (The tag side effect touches the
association table, not the document row, and is modelled separately.) -/
def documentUpdate (db : List Document) (user : User) (document_id : String)
    (data : DocumentUpdate) (now : Nat) : Except AppError Document :=
  match get_by_id db user document_id now with
  | Except.error e => Except.error e
  | Except.ok document => Except.ok (applyUpdateFields document data now)

/-- The `tags` table row (`app/models/tag.py`): tag ids, UUIDs in the source,
are modelled as counter-allocated naturals. -/
structure Tag where
  id : Nat
  user_id : String
  name : String
  color : String
  is_auto : Bool
deriving Repr, DecidableEq

/-- The `document_tags` association row; its table carries the composite
primary key and unique constraint `uq_document_tag` on
`(document_id, tag_id)`.  (`confidence`, a float defaulted to 1.0 and never
read here, is omitted.) -/
structure DocumentTag where
  document_id : String
  tag_id : Nat
  is_auto : Bool
deriving Repr, DecidableEq

/-- Tag-side database state: tag rows, association rows, and the id
allocator. -/
structure TagState where
  tags : List Tag
  doc_tags : List DocumentTag
  next_tag_id : Nat
deriving Repr, DecidableEq

/-- Python `str.strip()` whitespace: space, tab, newline, carriage return,
vertical tab, form feed. -/
def isSpaceChar (c : Char) : Bool :=
  c == ' ' || c == '\t' || c == '\n' || c == '\r' || c == '\x0b' || c == '\x0c'

/-- `tag_name.strip().lower()`: trim surrounding whitespace, then
lowercase. -/
def normalizeTagName (s : String) : String :=
  String.mk (lowerChars (((s.toList.dropWhile isSpaceChar).reverse.dropWhile isSpaceChar).reverse))

/-- One iteration of the loop in `DocumentService._apply_tags`: normalize the
name (strip then lowercase), skip empties, find-or-create the tag scoped to
the user, and append a new association row for the document. -/
def applyTagStep (document_id user_id : String) (st : TagState) (raw : String) : TagState :=
  let name := normalizeTagName raw
  if name == "" then st
  else
    match st.tags.find? (fun t => t.user_id == user_id && t.name == name) with
    | some tag =>
      { st with doc_tags := st.doc_tags ++ [⟨document_id, tag.id, false⟩] }
    | none =>
      let tag : Tag := ⟨st.next_tag_id, user_id, name, "#6366f1", false⟩
      { st with
          tags := st.tags ++ [tag],
          next_tag_id := st.next_tag_id + 1,
          doc_tags := st.doc_tags ++ [⟨document_id, tag.id, false⟩] }

/-- `DocumentService._apply_tags(document, user, tag_names)`: delete every
existing association of the document, then run the find-or-create loop over
the desired names. -/
def apply_tags (st : TagState) (document_id user_id : String) (tag_names : List String) :
    TagState :=
  let st := { st with doc_tags := st.doc_tags.filter (fun a => !(a.document_id == document_id)) }
  tag_names.foldl (applyTagStep document_id user_id) st

/-- The unique constraint `uq_document_tag` on `(document_id, tag_id)` (also
the table's composite primary key): the surrounding transaction can commit
only if no two association rows share the pair. -/
def docTagUniqueOk (st : TagState) : Bool :=
  decide (st.doc_tags.map (fun a => (a.document_id, a.tag_id))).Nodup

/-- The user row persisted by a successful registration. -/
def registeredUser (data : UserCreate) (new_id : String) (now : Nat) : User :=
  ⟨new_id, data.email, data.username, hash_password data.password,
   true, some default_settings, now, now⟩

/-- Equality of operation results is decidable, so theorems can be checked on
concrete inputs. -/
instance {ε α : Type} [DecidableEq ε] [DecidableEq α] : DecidableEq (Except ε α)
  | Except.error e, Except.error f =>
    if h : e = f then isTrue (by rw [h]) else isFalse (fun hc => by cases hc; exact h rfl)
  | Except.error _, Except.ok _ => isFalse (fun hc => by cases hc)
  | Except.ok _, Except.error _ => isFalse (fun hc => by cases hc)
  | Except.ok a, Except.ok b =>
    if h : a = b then isTrue (by rw [h]) else isFalse (fun hc => by cases hc; exact h rfl)

/-- A concrete user row, for instantiating theorems. -/
def sampleUser (id email username password : String) (active : Bool) : User :=
  ⟨id, email, username, hash_password password, active, some default_settings, 0, 0⟩

/-- A concrete document row, for instantiating theorems. -/
def sampleDoc (id uid title : String) (pinned archived : Bool) (created updated : Nat) :
    Document :=
  ⟨id, uid, title, none, none, none, "note", "manual", none, none, none, 0, none, 0,
   archived, pinned, false, created, updated⟩

/-- A partial update providing no fields at all. -/
def emptyUpdate : DocumentUpdate := ⟨none, none, none, none, none, none, none, none⟩

/-- A concrete partial update providing title, source_url and is_archived. -/
def frameUpdate : DocumentUpdate :=
  ⟨some "T2", none, none, some "http://x", none, some true, none, none⟩

/-- The document row produced by applying `frameUpdate` at time 5 to the
sample document. -/
def frameResult : Document :=
  { sampleDoc "dA" "u1" "A" false false 1 1 with
      title := "T2", source_url := some "http://x", is_archived := true,
      last_accessed := 5, updated_at := 5 }

/-- C1: tag application normalizes (trim + lowercase) and drops empties, and
an empty desired list removes every association — but for the duplicate-laden
input `["Work", " work ", "Work"]` the loop inserts one association row per
occurrence of the normalized name, not one per distinct name: three identical
`(document_id, tag_id)` pairs, violating the `uq_document_tag` unique
constraint (also the table's primary key), so the surrounding commit fails
instead of leaving exactly one association named "work". -/
theorem apply_tags_duplicate_names_bug :
    ((apply_tags ⟨[], [], 0⟩ "d1" "u1" ["Work", " work ", "Work"]).tags.map Tag.name = ["work"])
    ∧ ((apply_tags ⟨[], [], 0⟩ "d1" "u1" ["Work", " work ", "Work"]).doc_tags.map
        (fun a => (a.document_id, a.tag_id)) = [("d1", 0), ("d1", 0), ("d1", 0)])
    ∧ docTagUniqueOk (apply_tags ⟨[], [], 0⟩ "d1" "u1" ["Work", " work ", "Work"]) = false
    ∧ (apply_tags (apply_tags ⟨[], [], 0⟩ "d1" "u1" ["Work", " work ", "Work"]) "d1" "u1" []).doc_tags
        = [] := by
  decide

/-- C4: `verify_token` returns the payload exactly when the signature was made
with the server secret, the expiry has not passed, and the token's kind equals
the expected kind; every failure — bad signature, expired, wrong kind,
malformed token — collapses to the single uniform invalid result `none`.
A freshly issued access token passes verification as "access" and always fails
as "refresh", and a token issued with ttl = 0 fails verification at any
strictly later time. -/
theorem verify_token_spec :
    (∀ (secret : String) (now : Nat) (payload : TokenPayload) (key kind : String),
       verify_token secret now (Token.signed payload key) kind = some payload ↔
         (key = secret ∧ now ≤ payload.exp ∧ payload.type = kind))
    ∧ (∀ (secret : String) (now : Nat) (token : Token) (kind : String) (p : TokenPayload),
        verify_token secret now token kind = some p → token = Token.signed p secret)
    ∧ (∀ (secret raw kind : String) (now : Nat),
        verify_token secret now (Token.malformed raw) kind = none)
    ∧ (∀ (subject secret : String) (now ttl : Nat),
        verify_token secret now (create_access_token subject secret now ttl) "access"
          = some ⟨subject, now + ttl, "access"⟩
        ∧ ∀ now' : Nat,
            verify_token secret now' (create_access_token subject secret now ttl) "refresh" = none)
    ∧ (∀ (subject secret kind : String) (now now' : Nat), now < now' →
        verify_token secret now' (create_access_token subject secret now 0) kind = none) := by
  refine ⟨?_, ?_, ?_, ?_, ?_⟩
  · intro secret now payload key kind
    simp only [verify_token]
    split_ifs with h1 h2 h3
    · simp_all
    · simp_all
    · simp_all
    · simp_all
  · intro secret now token kind p h
    cases token with
    | malformed raw => simp [verify_token] at h
    | signed payload key =>
      simp only [verify_token] at h
      split_ifs at h with h1 h2 h3
      cases h
      simp_all
  · intro secret raw kind now
    simp [verify_token]
  · intro subject secret now ttl
    constructor
    · simp [verify_token, create_access_token]
    · intro now'
      simp [verify_token, create_access_token]
  · intro subject secret kind now now' h
    simp [verify_token, create_access_token]
    omega

/-- C4 witness: a concrete unexpired access token verifies as "access", and a
concrete ttl = 0 token fails verification one second later. -/
theorem verify_token_spec_witness :
    verify_token "s" 10 (Token.signed ⟨"u1", 20, "access"⟩ "s") "access"
      = some ⟨"u1", 20, "access"⟩
    ∧ verify_token "s" 5 (create_access_token "u1" "s" 4 0) "access" = none :=
  ⟨(verify_token_spec.1 "s" 10 ⟨"u1", 20, "access"⟩ "s" "access").mpr ⟨rfl, by decide, rfl⟩,
   verify_token_spec.2.2.2.2 "u1" "s" "access" 4 5 (by decide)⟩

/-- C2 counterexample: the three login failure causes are not all identical —
an inactive account with a correct password yields detail "Account is
disabled", while a nonexistent email yields "Invalid email or password". -/
theorem login_inactive_message_differs :
    login [sampleUser "u1" "a@x.com" "alice" "Passw0rd" false] ⟨"a@x.com", "Passw0rd"⟩ "s" 0
      = Except.error (unauthorizedError "Account is disabled")
    ∧ login [sampleUser "u1" "a@x.com" "alice" "Passw0rd" false] ⟨"b@x.com", "Passw0rd"⟩ "s" 0
      = Except.error (unauthorizedError "Invalid email or password")
    ∧ unauthorizedError "Account is disabled" ≠ unauthorizedError "Invalid email or password" := by
  refine ⟨by decide, by decide, by decide⟩

/-- C2 amended: all three login failure causes raise Unauthorized with the
same 401 status; nonexistent email and wrong password produce byte-identical
errors, but an inactive account produces a distinct detail string. -/
theorem login_error_cases :
    (∀ (db : List User) (data : UserLogin) (secret : String) (now : Nat),
       (∀ u ∈ db, u.email ≠ data.email) →
       login db data secret now = Except.error (unauthorizedError "Invalid email or password"))
    ∧ (∀ (db : List User) (data : UserLogin) (secret : String) (now : Nat) (u : User),
        db.find? (fun v => v.email == data.email) = some u →
        verify_password data.password u.password_hash = false →
        login db data secret now = Except.error (unauthorizedError "Invalid email or password"))
    ∧ (∀ (db : List User) (data : UserLogin) (secret : String) (now : Nat) (u : User),
        db.find? (fun v => v.email == data.email) = some u →
        verify_password data.password u.password_hash = true →
        u.is_active = false →
        login db data secret now = Except.error (unauthorizedError "Account is disabled"))
    ∧ (unauthorizedError "Account is disabled").status
        = (unauthorizedError "Invalid email or password").status := by
  refine ⟨?_, ?_, ?_, rfl⟩
  · intro db data secret now h
    have hnone : db.find? (fun v => v.email == data.email) = none := by
      rw [List.find?_eq_none]
      intro x hx
      simpa using h x hx
    simp [login, hnone]
  · intro db data secret now u hfind hverify
    simp [login, hfind, hverify]
  · intro db data secret now u hfind hverify hactive
    simp [login, hfind, hverify, hactive]

/-- C2 witness: the three failure cases on concrete inputs. -/
theorem login_error_cases_witness :
    login [] ⟨"a@x.com", "pw"⟩ "s" 0
      = Except.error (unauthorizedError "Invalid email or password")
    ∧ login [sampleUser "u1" "a@x.com" "alice" "Passw0rd" true] ⟨"a@x.com", "bad"⟩ "s" 0
      = Except.error (unauthorizedError "Invalid email or password")
    ∧ login [sampleUser "u1" "a@x.com" "alice" "Passw0rd" false] ⟨"a@x.com", "Passw0rd"⟩ "s" 0
      = Except.error (unauthorizedError "Account is disabled") :=
  ⟨login_error_cases.1 [] ⟨"a@x.com", "pw"⟩ "s" 0 (by decide),
   login_error_cases.2.1 _ ⟨"a@x.com", "bad"⟩ "s" 0
     (sampleUser "u1" "a@x.com" "alice" "Passw0rd" true) (by decide) (by decide),
   login_error_cases.2.2.1 _ ⟨"a@x.com", "Passw0rd"⟩ "s" 0
     (sampleUser "u1" "a@x.com" "alice" "Passw0rd" false) (by decide) (by decide) (by decide)⟩

/-- On a correct old password, `change_password` stores the new hash and bumps
the updated timestamp. -/
theorem change_password_ok (user : User) (old_pw new_pw : String) (now : Nat)
    (h : verify_password old_pw user.password_hash = true) :
    change_password user old_pw new_pw now
      = ({ user with password_hash := hash_password new_pw, updated_at := now }, none) := by
  simp [change_password, h]

/-- C8: `change_password` fails with BadRequest exactly when the old password
does not verify, leaving the user row (hash and timestamp included) unchanged;
on success it stores the new password's hash and bumps the updated timestamp,
after which login with the new password succeeds (for an active account) and
login with the old, different password fails. -/
theorem change_password_spec :
    (∀ (user : User) (old_pw new_pw : String) (now : Nat),
       verify_password old_pw user.password_hash = false →
       change_password user old_pw new_pw now
         = (user, some (badRequestError "Current password is incorrect")))
    ∧ (∀ (user : User) (old_pw new_pw : String) (now : Nat),
        verify_password old_pw user.password_hash = true →
        change_password user old_pw new_pw now
          = ({ user with password_hash := hash_password new_pw, updated_at := now }, none))
    ∧ (∀ (user : User) (old_pw new_pw secret : String) (now now' : Nat),
        verify_password old_pw user.password_hash = true →
        user.is_active = true →
        login [(change_password user old_pw new_pw now).1] ⟨user.email, new_pw⟩ secret now'
          = Except.ok ((change_password user old_pw new_pw now).1,
                       create_token_pair user.id secret now'))
    ∧ (∀ (user : User) (old_pw new_pw secret : String) (now now' : Nat),
        verify_password old_pw user.password_hash = true →
        old_pw ≠ new_pw →
        login [(change_password user old_pw new_pw now).1] ⟨user.email, old_pw⟩ secret now'
          = Except.error (unauthorizedError "Invalid email or password")) := by
  refine ⟨?_, ?_, ?_, ?_⟩
  · intro user old_pw new_pw now h
    simp [change_password, h]
  · intro user old_pw new_pw now h
    simp [change_password, h]
  · intro user old_pw new_pw secret now now' h hactive
    rw [change_password_ok user old_pw new_pw now h]
    simp [login, List.find?, verify_password, hash_password, hactive]
  · intro user old_pw new_pw secret now now' h hne
    rw [change_password_ok user old_pw new_pw now h]
    simp [login, List.find?, verify_password, hash_password]
    intro hc
    exact absurd hc hne

/-- C8 witness: wrong old password rejected without mutation; after a
successful change, login succeeds with the new password and fails with the
old. -/
theorem change_password_spec_witness :
    change_password (sampleUser "u1" "a@x.com" "alice" "OldPass1" true) "WrongPass" "NewPass1" 3
      = (sampleUser "u1" "a@x.com" "alice" "OldPass1" true,
         some (badRequestError "Current password is incorrect"))
    ∧ login [(change_password (sampleUser "u1" "a@x.com" "alice" "OldPass1" true)
               "OldPass1" "NewPass1" 3).1]
        ⟨"a@x.com", "NewPass1"⟩ "s" 7
        = Except.ok ((change_password (sampleUser "u1" "a@x.com" "alice" "OldPass1" true)
                       "OldPass1" "NewPass1" 3).1,
                     create_token_pair "u1" "s" 7)
    ∧ login [(change_password (sampleUser "u1" "a@x.com" "alice" "OldPass1" true)
               "OldPass1" "NewPass1" 3).1]
        ⟨"a@x.com", "OldPass1"⟩ "s" 7
        = Except.error (unauthorizedError "Invalid email or password") :=
  ⟨change_password_spec.1 (sampleUser "u1" "a@x.com" "alice" "OldPass1" true)
     "WrongPass" "NewPass1" 3 (by decide),
   change_password_spec.2.2.1 (sampleUser "u1" "a@x.com" "alice" "OldPass1" true)
     "OldPass1" "NewPass1" "s" 3 7 (by decide) (by decide),
   change_password_spec.2.2.2 (sampleUser "u1" "a@x.com" "alice" "OldPass1" true)
     "OldPass1" "NewPass1" "s" 3 7 (by decide) (by decide)⟩

/-- A satisfied existential makes `find?` succeed. -/
theorem find?_isSome_of_exists {α : Type} (l : List α) (p : α → Bool)
    (h : ∃ u ∈ l, p u = true) : (l.find? p).isSome = true :=
  List.find?_isSome.mpr h

/-- An unsatisfiable predicate makes `find?` fail. -/
theorem find?_isSome_false_of_not_exists {α : Type} (l : List α) (p : α → Bool)
    (h : ¬ ∃ u ∈ l, p u = true) : (l.find? p).isSome = false := by
  rw [Bool.eq_false_iff]
  intro hc
  exact h (List.find?_isSome.mp hc)

/-- A duplicate email makes registration fail with Conflict, database
unchanged. -/
theorem register_email_conflict (db : List User) (data : UserCreate)
    (new_id secret : String) (now : Nat) (h : ∃ u ∈ db, u.email = data.email) :
    register db data new_id secret now
      = (db, Except.error (conflictError "Email already registered")) := by
  have e : (db.find? (fun u => u.email == data.email)).isSome = true := by
    apply find?_isSome_of_exists
    obtain ⟨u, hu, he⟩ := h
    exact ⟨u, hu, by simp [he]⟩
  simp [register, e]

/-- A fresh email but duplicate username makes registration fail with
Conflict, database unchanged. -/
theorem register_username_conflict (db : List User) (data : UserCreate)
    (new_id secret : String) (now : Nat)
    (h1 : ¬ ∃ u ∈ db, u.email = data.email)
    (h2 : ∃ u ∈ db, u.username = data.username) :
    register db data new_id secret now
      = (db, Except.error (conflictError "Username already taken")) := by
  have e1 : (db.find? (fun u => u.email == data.email)).isSome = false := by
    apply find?_isSome_false_of_not_exists
    intro ⟨u, hu, he⟩
    exact h1 ⟨u, hu, by simpa using he⟩
  have e2 : (db.find? (fun u => u.username == data.username)).isSome = true := by
    apply find?_isSome_of_exists
    obtain ⟨u, hu, he⟩ := h2
    exact ⟨u, hu, by simp [he]⟩
  simp [register, e1, e2]

/-- With both uniqueness checks passing, registration persists exactly the new
user and issues a token pair for it. -/
theorem register_success (db : List User) (data : UserCreate)
    (new_id secret : String) (now : Nat)
    (h1 : ¬ ∃ u ∈ db, u.email = data.email)
    (h2 : ¬ ∃ u ∈ db, u.username = data.username) :
    register db data new_id secret now
      = (db ++ [registeredUser data new_id now],
         Except.ok (registeredUser data new_id now, create_token_pair new_id secret now)) := by
  have e1 : (db.find? (fun u => u.email == data.email)).isSome = false := by
    apply find?_isSome_false_of_not_exists
    intro ⟨u, hu, he⟩
    exact h1 ⟨u, hu, by simpa using he⟩
  have e2 : (db.find? (fun u => u.username == data.username)).isSome = false := by
    apply find?_isSome_false_of_not_exists
    intro ⟨u, hu, he⟩
    exact h2 ⟨u, hu, by simpa using he⟩
  simp [register, e1, e2, registeredUser]

/-- C7: registration fails with Conflict on a duplicate email, and (with the
email fresh) with Conflict on a duplicate username; both checks run before
any write, so on either Conflict the user list is returned unchanged.
Registering the same email twice — or, with a fresh email, the same username
twice — yields Conflict on the second attempt. -/
theorem register_spec :
    (∀ (db : List User) (data : UserCreate) (new_id secret : String) (now : Nat),
       (∃ u ∈ db, u.email = data.email) →
       register db data new_id secret now
         = (db, Except.error (conflictError "Email already registered")))
    ∧ (∀ (db : List User) (data : UserCreate) (new_id secret : String) (now : Nat),
        (¬ ∃ u ∈ db, u.email = data.email) →
        (∃ u ∈ db, u.username = data.username) →
        register db data new_id secret now
          = (db, Except.error (conflictError "Username already taken")))
    ∧ (∀ (db : List User) (data : UserCreate) (new_id secret : String) (now : Nat),
        (¬ ∃ u ∈ db, u.email = data.email) →
        (¬ ∃ u ∈ db, u.username = data.username) →
        register db data new_id secret now
          = (db ++ [registeredUser data new_id now],
             Except.ok (registeredUser data new_id now, create_token_pair new_id secret now)))
    ∧ (∀ (db : List User) (data : UserCreate) (new_id secret : String) (now : Nat)
         (data' : UserCreate) (new_id' secret' : String) (now' : Nat),
        (¬ ∃ u ∈ db, u.email = data.email) →
        (¬ ∃ u ∈ db, u.username = data.username) →
        data'.email = data.email →
        register (register db data new_id secret now).1 data' new_id' secret' now'
          = ((register db data new_id secret now).1,
             Except.error (conflictError "Email already registered")))
    ∧ (∀ (db : List User) (data : UserCreate) (new_id secret : String) (now : Nat)
         (data' : UserCreate) (new_id' secret' : String) (now' : Nat),
        (¬ ∃ u ∈ db, u.email = data.email) →
        (¬ ∃ u ∈ db, u.username = data.username) →
        (¬ ∃ u ∈ db, u.email = data'.email) →
        data'.email ≠ data.email →
        data'.username = data.username →
        register (register db data new_id secret now).1 data' new_id' secret' now'
          = ((register db data new_id secret now).1,
             Except.error (conflictError "Username already taken"))) := by
  refine ⟨register_email_conflict, register_username_conflict, register_success, ?_, ?_⟩
  · intro db data new_id secret now data' new_id' secret' now' h1 h2 he
    rw [register_success db data new_id secret now h1 h2]
    apply register_email_conflict
    exact ⟨registeredUser data new_id now, by simp, by simp [registeredUser, he]⟩
  · intro db data new_id secret now data' new_id' secret' now' h1 h2 h3 hne hu
    rw [register_success db data new_id secret now h1 h2]
    apply register_username_conflict
    · intro ⟨u, hmem, he⟩
      rcases List.mem_append.mp hmem with hin | hin
      · exact h3 ⟨u, hin, he⟩
      · simp at hin
        rw [hin] at he
        exact hne (by simpa [registeredUser] using he.symm)
    · exact ⟨registeredUser data new_id now, by simp, by simp [registeredUser, hu]⟩

/-- C7 witness: a concrete registration succeeds, then re-registering the same
email (or the same username under a fresh email) yields Conflict. -/
theorem register_spec_witness :
    register [] ⟨"a@x.com", "alice", "Passw0rd"⟩ "u1" "s" 0
      = ([registeredUser ⟨"a@x.com", "alice", "Passw0rd"⟩ "u1" 0],
         Except.ok (registeredUser ⟨"a@x.com", "alice", "Passw0rd"⟩ "u1" 0,
                    create_token_pair "u1" "s" 0))
    ∧ register (register [] ⟨"a@x.com", "alice", "Passw0rd"⟩ "u1" "s" 0).1
        ⟨"a@x.com", "bob", "Passw0rd"⟩ "u2" "s" 1
        = ((register [] ⟨"a@x.com", "alice", "Passw0rd"⟩ "u1" "s" 0).1,
           Except.error (conflictError "Email already registered"))
    ∧ register (register [] ⟨"a@x.com", "alice", "Passw0rd"⟩ "u1" "s" 0).1
        ⟨"b@x.com", "alice", "Passw0rd"⟩ "u2" "s" 1
        = ((register [] ⟨"a@x.com", "alice", "Passw0rd"⟩ "u1" "s" 0).1,
           Except.error (conflictError "Username already taken")) :=
  ⟨register_spec.2.2.1 [] ⟨"a@x.com", "alice", "Passw0rd"⟩ "u1" "s" 0 (by simp) (by simp),
   register_spec.2.2.2.1 [] ⟨"a@x.com", "alice", "Passw0rd"⟩ "u1" "s" 0
     ⟨"a@x.com", "bob", "Passw0rd"⟩ "u2" "s" 1 (by simp) (by simp) rfl,
   register_spec.2.2.2.2 [] ⟨"a@x.com", "alice", "Passw0rd"⟩ "u1" "s" 0
     ⟨"b@x.com", "alice", "Passw0rd"⟩ "u2" "s" 1 (by simp) (by simp) (by simp) (by decide) rfl⟩

/-- With pairwise-distinct document ids, `find?` by id returns the member with
that id. -/
theorem find?_eq_some_of_unique_id (db : List Document) (d : Document) (id : String)
    (hnodup : (db.map Document.id).Nodup) (hmem : d ∈ db) (hid : d.id = id) :
    db.find? (fun x => x.id == id) = some d := by
  induction db with
  | nil => cases hmem
  | cons h t ih =>
    rw [List.map_cons, List.nodup_cons] at hnodup
    rcases List.mem_cons.mp hmem with rfl | hmem'
    · simp [List.find?, hid]
    · have hne : h.id ≠ id := by
        intro hc
        exact hnodup.1 (by rw [hc, ← hid]; exact List.mem_map_of_mem Document.id hmem')
      have hb : (h.id == id) = false := by simpa using hne
      simp only [List.find?, hb]
      exact ih hnodup.2 hmem'

/-- C5: `get_by_id` returns NotFound when no document anywhere has the id;
Forbidden (never NotFound) when the document exists but belongs to a different
user; and the document itself (with `last_accessed` bumped) when it exists and
belongs to the acting user. -/
theorem get_by_id_spec :
    (∀ (db : List Document) (user : User) (id : String) (now : Nat),
       (∀ d ∈ db, d.id ≠ id) →
       get_by_id db user id now = Except.error (notFoundError "Document not found"))
    ∧ (∀ (db : List Document) (user : User) (id : String) (now : Nat) (d : Document),
        (db.map Document.id).Nodup → d ∈ db → d.id = id → d.user_id ≠ user.id →
        get_by_id db user id now = Except.error (forbiddenError "Access denied"))
    ∧ (∀ (db : List Document) (user : User) (id : String) (now : Nat) (d : Document),
        (db.map Document.id).Nodup → d ∈ db → d.id = id → d.user_id = user.id →
        get_by_id db user id now = Except.ok { d with last_accessed := now }) := by
  refine ⟨?_, ?_, ?_⟩
  · intro db user id now h
    have hnone : db.find? (fun x => x.id == id) = none := by
      rw [List.find?_eq_none]
      intro x hx
      simpa using h x hx
    simp [get_by_id, hnone]
  · intro db user id now d hnodup hmem hid howner
    rw [get_by_id, find?_eq_some_of_unique_id db d id hnodup hmem hid]
    simp [howner]
  · intro db user id now d hnodup hmem hid howner
    rw [get_by_id, find?_eq_some_of_unique_id db d id hnodup hmem hid]
    simp [howner]

/-- C5 witness: on a concrete two-owner database, a nonexistent id is
NotFound, another user's document is Forbidden, and the user's own document is
returned. -/
theorem get_by_id_spec_witness :
    get_by_id [sampleDoc "dA" "u1" "A" false false 1 1, sampleDoc "dB" "u2" "B" false false 1 1]
        (sampleUser "u1" "a@x.com" "alice" "pw" true) "dZ" 9
      = Except.error (notFoundError "Document not found")
    ∧ get_by_id [sampleDoc "dA" "u1" "A" false false 1 1, sampleDoc "dB" "u2" "B" false false 1 1]
        (sampleUser "u1" "a@x.com" "alice" "pw" true) "dB" 9
        = Except.error (forbiddenError "Access denied")
    ∧ get_by_id [sampleDoc "dA" "u1" "A" false false 1 1, sampleDoc "dB" "u2" "B" false false 1 1]
        (sampleUser "u1" "a@x.com" "alice" "pw" true) "dA" 9
        = Except.ok { sampleDoc "dA" "u1" "A" false false 1 1 with last_accessed := 9 } :=
  ⟨get_by_id_spec.1 _ (sampleUser "u1" "a@x.com" "alice" "pw" true) "dZ" 9 (by decide),
   get_by_id_spec.2.1 _ (sampleUser "u1" "a@x.com" "alice" "pw" true) "dB" 9
     (sampleDoc "dB" "u2" "B" false false 1 1) (by decide) (by decide) (by decide) (by decide),
   get_by_id_spec.2.2 _ (sampleUser "u1" "a@x.com" "alice" "pw" true) "dA" 9
     (sampleDoc "dA" "u1" "A" false false 1 1) (by decide) (by decide) (by decide) (by decide)⟩

/-- Sorting permutes: membership is preserved. -/
theorem mem_sortDocuments (f : DocumentSearchFilters) (l : List Document) (d : Document) :
    d ∈ sortDocuments f l ↔ d ∈ l := by
  unfold sortDocuments
  split_ifs <;> exact List.mem_insertionSort _

/-- Sorting permutes: length is preserved. -/
theorem length_sortDocuments (f : DocumentSearchFilters) (l : List Document) :
    (sortDocuments f l).length = l.length := by
  unfold sortDocuments
  split_ifs <;> exact List.length_insertionSort _ _

/-- Every document on a returned page satisfies the WHERE clause. -/
theorem matches_of_mem_documentsList (db : List Document) (user : User)
    (f : DocumentSearchFilters) (d : Document)
    (h : d ∈ (documentsList db user f).1) : matchesFilters user f d = true := by
  simp only [documentsList] at h
  have h1 : d ∈ sortDocuments f (db.filter (matchesFilters user f)) :=
    List.mem_of_mem_drop (List.mem_of_mem_take h)
  have h2 : d ∈ db.filter (matchesFilters user f) := (mem_sortDocuments _ _ _).mp h1
  exact (List.mem_filter.mp h2).2

/-- C6: with the archived filter unspecified every returned document has its
archived flag false (archived documents are excluded by default); with the
filter set to `b`, every returned document's archived flag equals `b`. -/
theorem list_archived_filter :
    (∀ (db : List Document) (user : User) (f : DocumentSearchFilters),
       f.is_archived = none →
       ∀ d ∈ (documentsList db user f).1, d.is_archived = false)
    ∧ (∀ (db : List Document) (user : User) (f : DocumentSearchFilters) (b : Bool),
        f.is_archived = some b →
        ∀ d ∈ (documentsList db user f).1, d.is_archived = b) := by
  constructor
  · intro db user f hf d hd
    have hm := matches_of_mem_documentsList db user f d hd
    simp only [matchesFilters, hf, Bool.and_eq_true] at hm
    simpa using hm.1.1.2
  · intro db user f b hf d hd
    have hm := matches_of_mem_documentsList db user f d hd
    simp only [matchesFilters, hf, Bool.and_eq_true] at hm
    simpa using hm.1.1.2

/-- C6 witness: on a concrete database with one archived and one live
document, the default listing returns only unarchived documents and the
`archived = true` listing returns only archived ones. -/
theorem list_archived_filter_witness :
    (∀ d ∈ (documentsList
        [sampleDoc "dA" "u1" "A" false false 1 1, sampleDoc "dB" "u1" "B" false true 2 2]
        (sampleUser "u1" "a@x.com" "alice" "pw" true)
        ⟨none, none, none, none, none, none, "updated_at", "desc", 1, 20⟩).1,
      d.is_archived = false)
    ∧ (∀ d ∈ (documentsList
        [sampleDoc "dA" "u1" "A" false false 1 1, sampleDoc "dB" "u1" "B" false true 2 2]
        (sampleUser "u1" "a@x.com" "alice" "pw" true)
        ⟨none, none, none, some true, none, none, "updated_at", "desc", 1, 20⟩).1,
      d.is_archived = true) :=
  ⟨list_archived_filter.1 _ _
     ⟨none, none, none, none, none, none, "updated_at", "desc", 1, 20⟩ rfl,
   list_archived_filter.2 _ _
     ⟨none, none, none, some true, none, none, "updated_at", "desc", 1, 20⟩ true rfl⟩

/-- `pagesFor N L` is the ceiling of N / L — the unique multiple bound — and
the last page holds `N mod L` items (or `L` when `L` divides `N`). -/
theorem pagesFor_spec (N L : Nat) (hL : 0 < L) :
    N ≤ pagesFor N L * L ∧ pagesFor N L * L < N + L
    ∧ (0 < N → min L (N - (pagesFor N L - 1) * L) = if N % L = 0 then L else N % L) := by
  rcases Nat.eq_zero_or_pos N with rfl | hN
  · refine ⟨by simp [pagesFor], by simp [pagesFor]; omega, by omega⟩
  · have hpf : pagesFor N L = (N - 1) / L + 1 := by
      unfold pagesFor
      rw [if_pos hN]
      have h : N + L - 1 = (N - 1) + L := by omega
      rw [h, Nat.add_div_right _ hL]
    have hq := Nat.div_add_mod (N - 1) L
    have hr : (N - 1) % L < L := Nat.mod_lt _ hL
    rw [hpf]
    set m := (N - 1) / L with hm
    set s := (N - 1) % L with hs
    have hmul : (m + 1) * L = L * m + L := by
      rw [Nat.succ_mul, Nat.mul_comm]
    have hmul2 : (m + 1 - 1) * L = L * m := by
      simp [Nat.mul_comm]
    have hN' : N = L * m + (s + 1) := by omega
    have hmod : N % L = (s + 1) % L := by
      rw [hN', Nat.mul_add_mod]
    refine ⟨by omega, by omega, ?_⟩
    intro _
    rw [hmul2]
    by_cases hsL : s + 1 = L
    · rw [hmod, hsL, Nat.mod_self, if_pos rfl]
      omega
    · have hlt : s + 1 < L := by omega
      rw [hmod, Nat.mod_eq_of_lt hlt, if_neg (by omega)]
      omega

/-- C9: the reported total is the size N of the filtered set, counted before
pagination; the returned page is the slice skipping (page − 1)·limit sorted
documents; the reported page count is the ceiling of N / limit (characterized
by its bounding inequalities); and on the last page the number of returned
items is N mod limit, or limit when limit divides N. -/
theorem list_pagination_spec :
    ∀ (db : List Document) (user : User) (f : DocumentSearchFilters),
      (documentsList db user f).2 = (db.filter (matchesFilters user f)).length
      ∧ (documentsList db user f).1
          = ((sortDocuments f (db.filter (matchesFilters user f))).drop
              ((f.page - 1) * f.limit)).take f.limit
      ∧ (1 ≤ f.limit →
          (db.filter (matchesFilters user f)).length
              ≤ pagesFor (db.filter (matchesFilters user f)).length f.limit * f.limit
          ∧ pagesFor (db.filter (matchesFilters user f)).length f.limit * f.limit
              < (db.filter (matchesFilters user f)).length + f.limit)
      ∧ (1 ≤ f.limit → 0 < (db.filter (matchesFilters user f)).length →
          f.page = pagesFor (db.filter (matchesFilters user f)).length f.limit →
          (documentsList db user f).1.length
            = if (db.filter (matchesFilters user f)).length % f.limit = 0
              then f.limit
              else (db.filter (matchesFilters user f)).length % f.limit) := by
  intro db user f
  refine ⟨rfl, rfl, ?_, ?_⟩
  · intro hL
    exact ⟨(pagesFor_spec _ _ hL).1, (pagesFor_spec _ _ hL).2.1⟩
  · intro hL hN hpage
    have hlen : (documentsList db user f).1.length
        = min f.limit
            ((db.filter (matchesFilters user f)).length - (f.page - 1) * f.limit) := by
      simp only [documentsList, List.length_take, List.length_drop, length_sortDocuments]
    rw [hlen, hpage]
    exact (pagesFor_spec _ _ hL).2.2 hN

/-- C9 witness: three matching documents at page size 2 give a final page of
3 mod 2 = 1 item, and the page count is ceil(3 / 2) = 2. -/
theorem list_pagination_spec_witness :
    (documentsList
        [sampleDoc "dA" "u1" "A" false false 1 1, sampleDoc "dB" "u1" "B" false false 2 2,
         sampleDoc "dC" "u1" "C" false false 3 3]
        (sampleUser "u1" "a@x.com" "alice" "pw" true)
        ⟨none, none, none, none, none, none, "updated_at", "desc", 2, 2⟩).1.length = 1
    ∧ pagesFor 3 2 = 2 :=
  ⟨by
    have h := (list_pagination_spec
      [sampleDoc "dA" "u1" "A" false false 1 1, sampleDoc "dB" "u1" "B" false false 2 2,
       sampleDoc "dC" "u1" "C" false false 3 3]
      (sampleUser "u1" "a@x.com" "alice" "pw" true)
      ⟨none, none, none, none, none, none, "updated_at", "desc", 2, 2⟩).2.2.2
      (by decide) (by decide) (by decide)
    simpa using h,
   by decide⟩

/-- C10 counterexample: an update providing no fields at all still changes
`last_accessed` (bumped by the internal ownership-checked read), a field that
is neither provided nor among the claim's permitted ones. -/
theorem update_unprovided_last_accessed_counterexample :
    documentUpdate [sampleDoc "dA" "u1" "A" false false 1 1]
        (sampleUser "u1" "a@x.com" "alice" "pw" true) "dA" emptyUpdate 5
      = Except.ok
          { sampleDoc "dA" "u1" "A" false false 1 1 with last_accessed := 5, updated_at := 5 }
    ∧ (sampleDoc "dA" "u1" "A" false false 1 1).last_accessed ≠ 5 := by
  decide

/-- C10 amended: in a successful update, an explicitly null optional field is
treated identically to an absent one (both deserialize to `none` and leave the
stored value unchanged, so no field — `source_url` included — can be cleared
to null); and no document fields change except those explicitly provided, plus
`updated_at`, `content_plain` alongside `content`, and `last_accessed`, which
the internal ownership-checked read bumps to the call time. -/
theorem documentUpdate_frame :
    ∀ (db : List Document) (user : User) (id : String) (data : DocumentUpdate) (now : Nat)
      (d r : Document),
      db.find? (fun x => x.id == id) = some d →
      d.user_id = user.id →
      documentUpdate db user id data now = Except.ok r →
      r.id = d.id ∧ r.user_id = d.user_id ∧ r.created_at = d.created_at
      ∧ r.source_type = d.source_type ∧ r.content_html = d.content_html
      ∧ r.metadata_json = d.metadata_json ∧ r.embedding = d.embedding
      ∧ r.importance_score = d.importance_score ∧ r.source_date = d.source_date
      ∧ r.is_processed = d.is_processed
      ∧ r.updated_at = now ∧ r.last_accessed = now
      ∧ r.title = (match data.title with | some t => t | none => d.title)
      ∧ r.content_raw = (match data.content with | some c => some c | none => d.content_raw)
      ∧ r.content_plain = (match data.content with | some c => some c | none => d.content_plain)
      ∧ r.doc_type = (match data.doc_type with | some t => t | none => d.doc_type)
      ∧ r.source_url = (match data.source_url with | some u => some u | none => d.source_url)
      ∧ r.is_pinned = (match data.is_pinned with | some b => b | none => d.is_pinned)
      ∧ r.is_archived = (match data.is_archived with | some b => b | none => d.is_archived)
      ∧ (d.source_url ≠ none → r.source_url ≠ none) := by
  intro db user id data now d r hfind howner hupd
  rw [documentUpdate, get_by_id, hfind] at hupd
  simp [howner] at hupd
  subst hupd
  rcases data with ⟨t, c, dt, su, ip, ia, tg, ci⟩
  cases t <;> cases c <;> cases dt <;> cases su <;> cases ip <;> cases ia <;>
    simp_all [applyUpdateFields]

/-- C10 witness: a concrete update providing title, source_url and
is_archived changes exactly those fields plus the two timestamps. -/
theorem documentUpdate_frame_witness :
    frameResult.id = (sampleDoc "dA" "u1" "A" false false 1 1).id
    ∧ frameResult.user_id = (sampleDoc "dA" "u1" "A" false false 1 1).user_id
    ∧ frameResult.created_at = (sampleDoc "dA" "u1" "A" false false 1 1).created_at
    ∧ frameResult.source_type = (sampleDoc "dA" "u1" "A" false false 1 1).source_type
    ∧ frameResult.content_html = (sampleDoc "dA" "u1" "A" false false 1 1).content_html
    ∧ frameResult.metadata_json = (sampleDoc "dA" "u1" "A" false false 1 1).metadata_json
    ∧ frameResult.embedding = (sampleDoc "dA" "u1" "A" false false 1 1).embedding
    ∧ frameResult.importance_score = (sampleDoc "dA" "u1" "A" false false 1 1).importance_score
    ∧ frameResult.source_date = (sampleDoc "dA" "u1" "A" false false 1 1).source_date
    ∧ frameResult.is_processed = (sampleDoc "dA" "u1" "A" false false 1 1).is_processed
    ∧ frameResult.updated_at = 5 ∧ frameResult.last_accessed = 5
    ∧ frameResult.title = "T2"
    ∧ frameResult.content_raw = (sampleDoc "dA" "u1" "A" false false 1 1).content_raw
    ∧ frameResult.content_plain = (sampleDoc "dA" "u1" "A" false false 1 1).content_plain
    ∧ frameResult.doc_type = (sampleDoc "dA" "u1" "A" false false 1 1).doc_type
    ∧ frameResult.source_url = some "http://x"
    ∧ frameResult.is_pinned = (sampleDoc "dA" "u1" "A" false false 1 1).is_pinned
    ∧ frameResult.is_archived = true
    ∧ ((sampleDoc "dA" "u1" "A" false false 1 1).source_url ≠ none →
        frameResult.source_url ≠ none) :=
  documentUpdate_frame [sampleDoc "dA" "u1" "A" false false 1 1]
    (sampleUser "u1" "a@x.com" "alice" "pw" true) "dA" frameUpdate 5
    (sampleDoc "dA" "u1" "A" false false 1 1) frameResult
    (by decide) (by decide) (by decide)

end Vault
